import Mathlib

/-!
Shallow embedding of the testcontainers-go module repository
(influxdb, neo4j, surrealdb modules), with the readiness-strategy
selector of the influxdb module's RunContainer as the core.

Go strings are modelled as Lean `String` (all literals involved are
ASCII, so byte indexing in Go coincides with character indexing here).
Go's `map[string]string` is modelled as an association list with
replace-in-place assignment, which matches Go map lookup/assignment
semantics up to iteration order.
-/

namespace TC

/-- A waiting strategy, polymorphic over the variants used by the
modules: exact log-substring match (`wait.ForLog`), regex log match
(`wait.ForLog(...).AsRegexp()`), listening-port check
(`wait.ForListeningPort`), and conjunction (`wait.ForAll`). -/
inductive Strategy where
  | forLog (s : String)
  | forLogRegexp (s : String)
  | forListeningPort (port : String)
  | forAll (ss : List Strategy)
deriving Repr

/-- A file mount descriptor (`testcontainers.ContainerFile`). -/
structure ContainerFile where
  hostFilePath : String
  containerFilePath : String
  fileMode : Nat
deriving Repr, DecidableEq

/-- The container request (`testcontainers.Request`), restricted to the
fields the three modules read or write. -/
structure Request where
  image : String
  exposedPorts : List String
  env : List (String × String)
  files : List ContainerFile
  waitingFor : Strategy
  cmd : List String
  started : Bool
deriving Repr

/-- Go map lookup `m[k]`: the value stored under `k`, if any. -/
def envFind (m : List (String × String)) (k : String) : Option String :=
  match m with
  | [] => none
  | (k', v') :: rest => if k' = k then some v' else envFind rest k

/-- Go map assignment `m[k] = v`: replace the binding of `k` in place,
or append a fresh binding. -/
def envSet (m : List (String × String)) (k v : String) :
    List (String × String) :=
  match m with
  | [] => [(k, v)]
  | (k', v') :: rest =>
      if k' = k then (k, v) :: rest else (k', v') :: envSet rest k v

/-- `strings.LastIndex(s, ":")` restricted to a one-character pattern:
the index of the last occurrence of `c` in the character list, if any. -/
def lastIndex (l : List Char) (c : Char) : Option Nat :=
  match l with
  | [] => none
  | x :: xs =>
      match lastIndex xs c with
      | some i => some (i + 1)
      | none => if x = c then some 0 else none

end TC

namespace influxdb

open TC

/-- `defaultImage` of the influxdb module. -/
def defaultImage : String := "influxdb:1.8"

/-- The initial request built by `RunContainer` of the influxdb module,
before customizers run. -/
def defaultRequest : Request where
  image := defaultImage
  exposedPorts := ["8086/tcp", "8088/tcp"]
  env :=
    [("INFLUXDB_BIND_ADDRESS", ":8088"),
     ("INFLUXDB_HTTP_BIND_ADDRESS", ":8086"),
     ("INFLUXDB_REPORTING_DISABLED", "true"),
     ("INFLUXDB_MONITOR_STORE_ENABLED", "false"),
     ("INFLUXDB_HTTP_HTTPS_ENABLED", "false"),
     ("INFLUXDB_HTTP_AUTH_ENABLED", "false")]
  files := []
  waitingFor := Strategy.forListeningPort "8086/tcp"
  cmd := []
  started := true

/-- The test of the file-mount scan in `RunContainer`:
`f.ContainerFilePath == "/" && strings.HasSuffix(f.HostFilePath,
"docker-entrypoint-initdb.d")`. -/
def isInitMount (f : ContainerFile) : Bool :=
  f.containerFilePath = "/" &&
    "docker-entrypoint-initdb.d".data.isSuffixOf f.hostFilePath.data

/-- The regex pattern installed for 2.x / latest images. -/
def listeningRegexp : String :=
  "Listening log_id=[0-9a-zA-Z_~]+ service=tcp-listener transport=http"

/-- The readiness-strategy selection block of `RunContainer`
(influxdb.go lines 44-74), as a pure function on the request.
`none` models the Go runtime panic: when the image has a `:` with an
empty tag behind it, `tag == "latest"` is false and `tag[0]` indexes an
empty string, an out-of-range access. -/
def selectReadinessStrategy (req : Request) : Option Request :=
  if req.files.any isInitMount then
    some { req with
      waitingFor := Strategy.forAll
        [req.waitingFor,
         Strategy.forLog "influxdb init process in progress...",
         Strategy.forLog "Server shutdown completed",
         Strategy.forLog "Opened shard"] }
  else
    match lastIndex req.image.data ':' with
    | some i =>
        let tag : List Char := req.image.data.drop (i + 1)
        if tag = "latest".data then
          some { req with waitingFor := Strategy.forLogRegexp listeningRegexp }
        else
          match tag with
          | [] => none
          | c :: _ =>
              if c = '2' then
                some { req with
                  waitingFor := Strategy.forLogRegexp listeningRegexp }
              else
                some req
    | none =>
        some { req with waitingFor := Strategy.forLog "Listening for signals" }

/-- The four-element conjunction installed when an init-script mount is
present, as a function of the previously configured strategy. -/
def initConj (w : Strategy) : Strategy :=
  Strategy.forAll
    [w,
     Strategy.forLog "influxdb init process in progress...",
     Strategy.forLog "Server shutdown completed",
     Strategy.forLog "Opened shard"]

/-- A request carrying the mount produced by `WithInitDb` with host
source directory `/testdata`. -/
def initMountRequest : Request :=
  { defaultRequest with
    files := [⟨"/testdata/docker-entrypoint-initdb.d", "/", 0o755⟩] }

end influxdb

namespace neo4j

open TC

/-- `formatNeo4jConfig`: double each underscore, turn dots into
underscores, prepend `NEO4J_`.  The Go original uses
`strings.ReplaceAll` with one-character patterns, so a character-wise
transcription is exact. -/
def formatNeo4jConfig (name : String) : String :=
  let doubled := name.data.foldr
    (fun c acc => if c = '_' then '_' :: '_' :: acc else c :: acc) []
  let dotted := doubled.map (fun c => if c = '.' then '_' else c)
  "NEO4J_" ++ String.mk dotted

/-- `addSetting(req, key, newVal)`.  The result pairs the Go error (if
any) with the request as the caller sees it after the call: on the
error path Go returns before the assignment, so the request is
returned unchanged.  The overwrite warning is a log print with no
effect on the request and is not modelled. -/
def addSetting (req : Request) (key newVal : String) :
    Option String × Request :=
  let normalizedKey := formatNeo4jConfig key
  match envFind req.env normalizedKey with
  | some _ =>
      if key = "AUTH" then
        (some ("setting " ++ normalizedKey ++
          " is not permitted, WithAdminPassword has already been set"), req)
      else
        (none, { req with env := envSet req.env normalizedKey newVal })
  | none => (none, { req with env := envSet req.env normalizedKey newVal })

/-- `WithNeo4jSetting(key, value)` applied to a request: a direct call
to `addSetting`. -/
def withNeo4jSetting (key value : String) (req : Request) :
    Option String × Request :=
  addSetting req key value

/-- `strings.Join(xs, sep)`. -/
def goJoin (sep : String) : List String → String
  | [] => ""
  | [x] => x
  | x :: y :: xs => x ++ sep ++ goJoin sep (y :: xs)

/-- `WithLabsPlugin(plugins...)` applied to a request: when at least one
plugin is given, set `NEO4JLABS_PLUGINS` to the names joined as a
quoted JSON-style array; otherwise leave the request alone. -/
def withLabsPlugin (plugins : List String) (req : Request) : Request :=
  let rawPluginValues := plugins
  if plugins.length > 0 then
    { req with
      env := envSet req.env "NEO4JLABS_PLUGINS"
        ("[\"" ++ goJoin "\",\"" rawPluginValues ++ "\"]") }
  else
    req

/-- A request whose environment already binds `NEO4J_AUTH`, as left by
`WithAdminPassword("password")`. -/
def authRequest : Request where
  image := "neo4j:4.4"
  exposedPorts := []
  env := [("NEO4J_AUTH", "neo4j/password")]
  files := []
  waitingFor := Strategy.forLog "Started."
  cmd := []
  started := true

end neo4j

namespace surrealdb

open TC

/-- `WithAllowAllCaps()` applied to a request: sets
`SURREAL_CAPS_ALLOW_ALL` to `"false"`. -/
def withAllowAllCaps (req : Request) : Request :=
  { req with env := envSet req.env "SURREAL_CAPS_ALLOW_ALL" "false" }

/-- The initial request built by `RunContainer` of the surrealdb
module, before customizers run. -/
def defaultRequest : Request where
  image := "surrealdb/surrealdb:v1.1.1"
  exposedPorts := ["8000/tcp"]
  env :=
    [("SURREAL_USER", "root"),
     ("SURREAL_PASS", "root"),
     ("SURREAL_AUTH", "false"),
     ("SURREAL_STRICT", "false"),
     ("SURREAL_CAPS_ALLOW_ALL", "false"),
     ("SURREAL_PATH", "memory")]
  files := []
  waitingFor := Strategy.forAll [Strategy.forLog "Started web server on "]
  cmd := ["start"]
  started := true

end surrealdb

namespace TC

theorem envFind_envSet_self (m : List (String × String)) (k v : String) :
    envFind (envSet m k v) k = some v := by
  induction m with
  | nil => simp [envSet, envFind]
  | cons p rest ih =>
      obtain ⟨k', v'⟩ := p
      by_cases h : k' = k
      · simp [envSet, envFind, h]
      · simp [envSet, envFind, h, ih]

theorem envFind_envSet_ne (m : List (String × String)) (k v k' : String)
    (h : k' ≠ k) : envFind (envSet m k v) k' = envFind m k' := by
  have hk : ¬ k = k' := fun hh => h hh.symm
  induction m with
  | nil => simp [envSet, envFind, hk]
  | cons p rest ih =>
      obtain ⟨k₀, v₀⟩ := p
      by_cases h0 : k₀ = k
      · subst h0
        simp [envSet, envFind, hk]
      · simp only [envSet, h0, if_false, envFind]
        by_cases h1 : k₀ = k'
        · simp [h1]
        · simp [h1, ih]

end TC

namespace influxdb

open TC

theorem select_of_initMount (req : Request)
    (h : req.files.any isInitMount = true) :
    selectReadinessStrategy req =
      some { req with waitingFor := initConj req.waitingFor } := by
  simp [selectReadinessStrategy, h, initConj]

/-- C1: the claim expects the selector to survive an image reference
with an empty tag segment and leave the default strategy in place; the
code instead evaluates `tag[0]` on the empty tag and panics with an
out-of-range index, modelled here as `none`. -/
theorem c1_empty_tag_panics :
    ({ defaultRequest with image := "influxdb:" } : Request).files.any
        isInitMount = false ∧
      selectReadinessStrategy { defaultRequest with image := "influxdb:" } =
        none :=
  ⟨rfl, rfl⟩

/-- C2: with an init-script mount present (container path `/`, host
path ending in `docker-entrypoint-initdb.d`), the selector replaces the
waiting strategy by the conjunction of, in order: the configured
default, the init-process-start log match, the shutdown-completion log
match, and the post-restart `Opened shard` log match. -/
theorem c2_init_script_four_conjuncts (req : Request)
    (h : req.files.any isInitMount = true) :
    selectReadinessStrategy req =
      some { req with waitingFor :=
        (Strategy.forAll
          [req.waitingFor,
           Strategy.forLog "influxdb init process in progress...",
           Strategy.forLog "Server shutdown completed",
           Strategy.forLog "Opened shard"]) } :=
  select_of_initMount req h

theorem c2_init_script_four_conjuncts_witness :
    initMountRequest.files.any isInitMount = true ∧
      selectReadinessStrategy initMountRequest =
        some { initMountRequest with waitingFor :=
          (Strategy.forAll
            [Strategy.forListeningPort "8086/tcp",
             Strategy.forLog "influxdb init process in progress...",
             Strategy.forLog "Server shutdown completed",
             Strategy.forLog "Opened shard"]) } :=
  ⟨rfl, c2_init_script_four_conjuncts initMountRequest rfl⟩

/-- C3: without an init-script mount, a non-empty tag equal to
`latest` or beginning with `2` makes the selector install the
regex-based structured-log match. -/
theorem c3_new_version_regexp (req : Request) (i : Nat)
    (hmount : req.files.any isInitMount = false)
    (hidx : lastIndex req.image.data ':' = some i)
    (htag : req.image.data.drop (i + 1) = "latest".data ∨
      (req.image.data.drop (i + 1)).head? = some '2') :
    selectReadinessStrategy req =
      some { req with waitingFor := Strategy.forLogRegexp listeningRegexp } := by
  unfold selectReadinessStrategy
  rw [hmount]
  simp only [Bool.false_eq_true, if_false, hidx]
  rcases htag with htag | htag
  · simp [htag]
  · rcases hdrop : req.image.data.drop (i + 1) with _ | ⟨c, rest⟩
    · rw [hdrop] at htag; simp at htag
    · rw [hdrop] at htag
      simp only [List.head?] at htag
      obtain rfl : c = '2' := by injection htag
      by_cases hl : req.image.data.drop (i + 1) = "latest".data
      · simp [hl]
      · simp [hl, hdrop]

theorem c3_new_version_regexp_witness :
    ({ defaultRequest with image := "influxdb:2.7.1" } : Request).files.any
        isInitMount = false ∧
      lastIndex ("influxdb:2.7.1" : String).data ':' = some 8 ∧
      selectReadinessStrategy { defaultRequest with image := "influxdb:2.7.1" } =
        some { defaultRequest with
          image := "influxdb:2.7.1",
          waitingFor := Strategy.forLogRegexp listeningRegexp } :=
  ⟨rfl, by decide,
    c3_new_version_regexp { defaultRequest with image := "influxdb:2.7.1" } 8
      rfl (by decide) (Or.inr (by decide))⟩

/-- C4: without an init-script mount, an image reference containing no
`:` makes the selector install the generic
`Listening for signals` log match. -/
theorem c4_no_colon_generic (req : Request)
    (hmount : req.files.any isInitMount = false)
    (hidx : lastIndex req.image.data ':' = none) :
    selectReadinessStrategy req =
      some { req with
        waitingFor := Strategy.forLog "Listening for signals" } := by
  unfold selectReadinessStrategy
  rw [hmount]
  simp [hidx]

/-- C5: without an init-script mount, a non-empty tag that is neither
`latest` nor starts with `2` leaves the request untouched; in
particular the default `influxdb:1.8` request keeps its listening-port
check on port 8086. -/
theorem c5_old_version_unchanged :
    (∀ (req : Request) (i : Nat),
      req.files.any isInitMount = false →
      lastIndex req.image.data ':' = some i →
      req.image.data.drop (i + 1) ≠ [] →
      req.image.data.drop (i + 1) ≠ "latest".data →
      (req.image.data.drop (i + 1)).head? ≠ some '2' →
      selectReadinessStrategy req = some req) ∧
    selectReadinessStrategy defaultRequest = some defaultRequest ∧
    defaultRequest.waitingFor = Strategy.forListeningPort "8086/tcp" := by
  refine ⟨?_, rfl, rfl⟩
  intro req i hmount hidx hne hlat h2
  unfold selectReadinessStrategy
  rw [hmount]
  simp only [Bool.false_eq_true, if_false, hidx]
  rcases hdrop : req.image.data.drop (i + 1) with _ | ⟨c, rest⟩
  · exact absurd hdrop hne
  · rw [hdrop] at hlat h2
    have hc : ¬ c = '2' := fun hcc => h2 (by simp [List.head?, hcc])
    simp [hlat, hc, hdrop]

theorem c5_old_version_unchanged_witness :
    defaultRequest.files.any isInitMount = false ∧
      lastIndex defaultRequest.image.data ':' = some 8 ∧
      selectReadinessStrategy defaultRequest = some defaultRequest :=
  ⟨rfl, by decide,
    c5_old_version_unchanged.1 defaultRequest 8 rfl (by decide) (by decide)
      (by decide) (by decide)⟩

/-- C6: whenever the selector completes, every request field other
than the waiting strategy (image, exposed ports, environment, file
mounts, command, started flag) is unchanged. -/
theorem c6_frame (req req' : Request)
    (h : selectReadinessStrategy req = some req') :
    req'.image = req.image ∧ req'.exposedPorts = req.exposedPorts ∧
      req'.env = req.env ∧ req'.files = req.files ∧
      req'.cmd = req.cmd ∧ req'.started = req.started := by
  unfold selectReadinessStrategy at h
  repeat'
    first
      | split at h
      | (dsimp only at h)
  all_goals first
    | exact Option.noConfusion h
    | (obtain rfl := Option.some.inj h; exact ⟨rfl, rfl, rfl, rfl, rfl, rfl⟩)

theorem c6_frame_witness :
    selectReadinessStrategy { defaultRequest with image := "influxdb:latest" } =
      some { defaultRequest with
        image := "influxdb:latest",
        waitingFor := Strategy.forLogRegexp listeningRegexp } ∧
    (({ defaultRequest with
        image := "influxdb:latest",
        waitingFor := Strategy.forLogRegexp listeningRegexp } : Request).env =
      ({ defaultRequest with image := "influxdb:latest" } : Request).env ∧
     ({ defaultRequest with
        image := "influxdb:latest",
        waitingFor := Strategy.forLogRegexp listeningRegexp } : Request).files =
      ({ defaultRequest with image := "influxdb:latest" } : Request).files) :=
  ⟨rfl,
   (c6_frame { defaultRequest with image := "influxdb:latest" }
      { defaultRequest with
        image := "influxdb:latest",
        waitingFor := Strategy.forLogRegexp listeningRegexp } rfl).2.2.1,
   (c6_frame { defaultRequest with image := "influxdb:latest" }
      { defaultRequest with
        image := "influxdb:latest",
        waitingFor := Strategy.forLogRegexp listeningRegexp } rfl).2.2.2.1⟩

/-- C7: the selector is not idempotent on init-script requests: a
second run wraps the four-element conjunction produced by the first
run as the first element of a new four-element conjunction. -/
theorem c7_not_idempotent (req : Request)
    (h : req.files.any isInitMount = true) :
    ∃ r₁ r₂,
      selectReadinessStrategy req = some r₁ ∧
      selectReadinessStrategy r₁ = some r₂ ∧
      r₁.waitingFor = initConj req.waitingFor ∧
      r₂.waitingFor =
        (Strategy.forAll
          [initConj req.waitingFor,
           Strategy.forLog "influxdb init process in progress...",
           Strategy.forLog "Server shutdown completed",
           Strategy.forLog "Opened shard"]) :=
  ⟨{ req with waitingFor := initConj req.waitingFor },
   { req with waitingFor := initConj (initConj req.waitingFor) },
   select_of_initMount req h, select_of_initMount _ h, rfl, rfl⟩

theorem c7_not_idempotent_witness :
    initMountRequest.files.any isInitMount = true ∧
      (∃ r₁ r₂,
        selectReadinessStrategy initMountRequest = some r₁ ∧
        selectReadinessStrategy r₁ = some r₂ ∧
        r₁.waitingFor = initConj initMountRequest.waitingFor ∧
        r₂.waitingFor =
          (Strategy.forAll
            [initConj initMountRequest.waitingFor,
             Strategy.forLog "influxdb init process in progress...",
             Strategy.forLog "Server shutdown completed",
             Strategy.forLog "Opened shard"])) :=
  ⟨rfl, c7_not_idempotent initMountRequest rfl⟩

theorem c4_no_colon_generic_witness :
    ({ defaultRequest with image := "influxdb" } : Request).files.any
        isInitMount = false ∧
      lastIndex ("influxdb" : String).data ':' = none ∧
      selectReadinessStrategy { defaultRequest with image := "influxdb" } =
        some { defaultRequest with
          image := "influxdb",
          waitingFor := Strategy.forLog "Listening for signals" } :=
  ⟨rfl, by decide,
    c4_no_colon_generic { defaultRequest with image := "influxdb" } rfl
      (by decide)⟩

end influxdb

namespace neo4j

open TC

/-- C8: `addSetting` (and hence `WithNeo4jSetting`) errors exactly when
the raw key is `AUTH` and `NEO4J_AUTH` is already bound; on error the
request is unchanged, and on success the normalized key is bound to
the new value while every other key keeps its prior binding. -/
theorem c8_addSetting_auth_guard (req : Request) (key v : String) :
    ((addSetting req key v).1.isSome ↔
      key = "AUTH" ∧ (envFind req.env "NEO4J_AUTH").isSome) ∧
    ((addSetting req key v).1.isSome → (addSetting req key v).2 = req) ∧
    ((addSetting req key v).1 = none →
      envFind (addSetting req key v).2.env (formatNeo4jConfig key) = some v ∧
      ∀ k', k' ≠ formatNeo4jConfig key →
        envFind (addSetting req key v).2.env k' = envFind req.env k') ∧
    withNeo4jSetting key v req = addSetting req key v := by
  have hfmt : formatNeo4jConfig "AUTH" = "NEO4J_AUTH" := by decide
  rcases henv : envFind req.env (formatNeo4jConfig key) with _ | val
  · refine ⟨?_, ?_, ?_, rfl⟩
    · simp only [addSetting, henv, Option.isSome_none, Bool.false_eq_true,
        false_iff]
      rintro ⟨rfl, hs⟩
      rw [hfmt] at henv
      simp [henv] at hs
    · simp [addSetting, henv]
    · intro _
      exact ⟨by simp [addSetting, henv, envFind_envSet_self],
        fun k' hk' => by simp [addSetting, henv, envFind_envSet_ne _ _ _ _ hk']⟩
  · by_cases hk : key = "AUTH"
    · subst hk
      refine ⟨?_, fun _ => ?_, ?_, rfl⟩
      · simp only [addSetting, henv, if_pos rfl]
        rw [hfmt] at henv
        simp [henv]
      · simp [addSetting, henv]
      · intro habs
        simp [addSetting, henv] at habs
    · refine ⟨?_, ?_, ?_, rfl⟩
      · simp [addSetting, henv, hk]
      · simp [addSetting, henv, hk]
      · intro _
        exact ⟨by simp [addSetting, henv, hk, envFind_envSet_self],
          fun k' hk' => by
            simp [addSetting, henv, hk, envFind_envSet_ne _ _ _ _ hk']⟩

theorem c8_addSetting_auth_guard_witness :
    (addSetting authRequest "AUTH" "neo4j/other").1.isSome ∧
    (addSetting authRequest "AUTH" "neo4j/other").2 = authRequest ∧
    envFind (addSetting authRequest "dbms.tx_log.rotation.size" "1G").2.env
      (formatNeo4jConfig "dbms.tx_log.rotation.size") = some "1G" :=
  ⟨(c8_addSetting_auth_guard authRequest "AUTH" "neo4j/other").1.mpr
      ⟨rfl, by decide⟩,
   (c8_addSetting_auth_guard authRequest "AUTH" "neo4j/other").2.1 (by decide),
   ((c8_addSetting_auth_guard authRequest "dbms.tx_log.rotation.size"
      "1G").2.2.1 (by decide)).1⟩

/-- C9: `WithLabsPlugin` with no plugins leaves the request unchanged;
with at least one plugin it binds exactly `NEO4JLABS_PLUGINS` to the
quoted JSON-style array of the plugin names and touches no other key. -/
theorem c9_labs_plugins (req : Request) (plugins : List String) :
    (plugins = [] → withLabsPlugin plugins req = req) ∧
    (plugins ≠ [] →
      envFind (withLabsPlugin plugins req).env "NEO4JLABS_PLUGINS" =
        some ("[\"" ++ goJoin "\",\"" plugins ++ "\"]") ∧
      ∀ k', k' ≠ "NEO4JLABS_PLUGINS" →
        envFind (withLabsPlugin plugins req).env k' = envFind req.env k') := by
  constructor
  · rintro rfl
    rfl
  · intro hne
    have hlen : 0 < plugins.length := List.length_pos.mpr hne
    simp only [withLabsPlugin, gt_iff_lt, if_pos hlen]
    exact ⟨envFind_envSet_self _ _ _,
      fun k' hk' => envFind_envSet_ne _ _ _ _ hk'⟩

theorem c9_labs_plugins_witness :
    withLabsPlugin [] authRequest = authRequest ∧
      envFind (withLabsPlugin ["apoc", "bloom"] authRequest).env
        "NEO4JLABS_PLUGINS" =
        some ("[\"" ++ goJoin "\",\"" ["apoc", "bloom"] ++ "\"]") :=
  ⟨(c9_labs_plugins authRequest []).1 rfl,
   ((c9_labs_plugins authRequest ["apoc", "bloom"]).2 (by decide)).1⟩

end neo4j

namespace surrealdb

open TC

/-- C10: `WithAllowAllCaps` always writes the value `"false"` under
`SURREAL_CAPS_ALLOW_ALL` — the same value RunContainer's default
request already carries — so on the fresh default request the
environment is left unchanged, and the capability is never enabled. -/
theorem c10_allowAllCaps_noop :
    (∀ req : Request,
      envFind (withAllowAllCaps req).env "SURREAL_CAPS_ALLOW_ALL" =
        some "false") ∧
    envFind defaultRequest.env "SURREAL_CAPS_ALLOW_ALL" = some "false" ∧
    (withAllowAllCaps defaultRequest).env = defaultRequest.env :=
  ⟨fun req => envFind_envSet_self req.env _ _, by decide, by decide⟩

end surrealdb
